import Mathlib

/-!
Verification of the deep-thoughts repository: a shallow embedding of the
server-side identity pipeline (`utils/auth.js`, `schemas/resolvers.js`), the
client auth service (`client/src/utils/auth.js`) and the client cache
synchronizer (the `update` callback of `ThoughtForm`), together with theorems
settling the spec's claims about them.

JavaScript is embedded as follows: possibly-absent values become `Option`,
thrown exceptions become `Except`, mutation of a store becomes explicit state
passing (each operation returns its result together with the new store), and
JavaScript truthiness of an optional string (`undefined`, `null` and `""` are
falsy) is the `truthy` predicate below.
-/

namespace DeepThoughts

/-- Error taxonomy of the server code. The resolvers throw
`AuthenticationError(msg)` (from apollo-server-express); token verification
failure inside the jwt library is a distinct kind, never surfaced by the
middleware. -/
inductive Err where
  | authenticationError (msg : String)
  | invalidToken
  | cacheMiss (msg : String)
  deriving Repr, DecidableEq

/-- The identity assertion embedded in a token: the `{ username, email, _id }`
payload built by `signToken` in `server/utils/auth.js` and attached to
`req.user` by `authMiddleware`. -/
structure AuthPayload where
  username : String
  email : String
  _id : Nat
  deriving Repr, DecidableEq

/-- The object actually signed: `jwt.sign({ data: payload }, ...)` wraps the
payload under a `data` key, and `authMiddleware` destructures `{ data }` from
the verified result. -/
structure SignedPayload where
  data : AuthPayload
  deriving Repr, DecidableEq

/-- Modelled from the spec: the external `jsonwebtoken` sign/verify primitives
are out of scope ("raw ... crypto primitives of password hashing and token
signing (treated as opaque sign/verify/hash/compare primitives)"), so a signed
token is modelled as the record of what signing it took: the payload, the
issue time (seconds) and the secret used. -/
structure JwtToken where
  payload : SignedPayload
  iat : Nat
  sec : String
  deriving Repr, DecidableEq

/-- Modelled from the spec: `jwt.sign(obj, secret, { expiresIn })` of the
external library, producing a signed time-boxed artifact. -/
def jwt_sign (p : SignedPayload) (secret : String) (iat : Nat) : JwtToken :=
  ⟨p, iat, secret⟩

/-- Modelled from the spec: `jwt.verify(token, secret, { maxAge })` of the
external library. Per spec §4.1 it "returns the embedded assertion only if the
signature matches a known secret and the token has not exceeded its maximum
age, otherwise fails with `InvalidToken`". -/
def jwt_verify (secret : String) (maxAgeSecs : Nat) (now : Nat)
    (tok : JwtToken) : Except Err SignedPayload :=
  if tok.sec = secret ∧ now ≤ tok.iat + maxAgeSecs then .ok tok.payload
  else .error .invalidToken

/-- The module-level `secret` constant of `server/utils/auth.js`. -/
def secret : String := "mysecretsshhhhh"

/-- The module-level `expiration` constant (`'2h'`), in seconds. -/
def expirationSecs : Nat := 7200

/-- The source's `signToken({ username, email, _id })`: builds the payload
from the user object's three fields and signs `{ data: payload }` with the
module secret. The issue time is the moment of signing, passed explicitly. -/
def signToken (username email : String) (_id : Nat) (iat : Nat) : JwtToken :=
  jwt_sign ⟨⟨username, email, _id⟩⟩ secret iat

/-! ## Request Identity Resolver (`authMiddleware` in `server/utils/auth.js`) -/

/-- An inbound request, as the middleware sees it: the three credential
carriers (`req.body.token`, `req.query.token`, `req.headers.authorization`)
and the `user` property the middleware may attach. -/
structure Req where
  body_token : Option String
  query_token : Option String
  authorization : Option String
  user : Option AuthPayload
  deriving Repr, DecidableEq

/-- JavaScript truthiness of a possibly-absent string: `undefined` and the
empty string are falsy. -/
def truthy : Option String → Bool
  | none => false
  | some s => s ≠ ""

/-- The JavaScript `||` operator on possibly-absent strings: yields the first
operand when it is truthy, otherwise the second operand (which may itself be
falsy). -/
def jsOr (a b : Option String) : Option String :=
  if truthy a then a else b

/-- The header-stripping step `token.split(' ').pop().trim()`: split on the
space character, take the last segment, trim surrounding whitespace. -/
def stripBearer (t : String) : String :=
  ((t.splitOn " ").getLastD "").trim

/-- The token-selection logic of `authMiddleware`:
`let token = req.body.token || req.query.token || req.headers.authorization`
followed by the strip step, which runs whenever `req.headers.authorization`
is truthy (regardless of which carrier supplied the token). -/
def extractedToken (req : Req) : Option String :=
  let token := jsOr req.body_token (jsOr req.query_token req.authorization)
  if truthy req.authorization then token.map stripBearer else token

/-- The source's `authMiddleware({ req })`. The verify primitive is passed in
as a function on the selected token string (the external jwt library applied
to the module secret); `Except.error` is its thrown exception. The middleware
itself is a total function: the `try...catch` around `jwt.verify` means no
token failure ever escapes to the transport layer. -/
def authMiddleware (verify : String → Except Err SignedPayload) (req : Req) :
    Req :=
  match extractedToken req with
  | none => req
  | some t =>
    if t = "" then req
    else
      match verify t with
      | .ok decoded => { req with user := some decoded.data }
      | .error _ => req

/-- The token selection exactly as the spec words it: take the first truthy
carrier in the order body field, query parameter, Authorization header; when
the Authorization header is present, strip the Bearer scheme prefix from the
selected value before verification. Written from the spec sentence, for
comparison with `extractedToken`. -/
def specTokenSelection (req : Req) : Option String :=
  let base :=
    if truthy req.body_token then req.body_token
    else if truthy req.query_token then req.query_token
    else req.authorization
  if truthy req.authorization then base.map stripBearer else base

/-! ## Client auth service (`client/src/utils/auth.js`) -/

/-- The object produced by the client-side `jwt-decode` library: the claim the
client inspects is the `exp` timestamp (seconds). -/
structure DecodedClientToken where
  exp : Nat
  deriving Repr, DecidableEq

/-- The source's `AuthService.isTokenExpired(token)`: decode the token and
compare `decoded.exp < Date.now() / 1000`; a decode failure is caught and
yields `false`. The external `jwt-decode` primitive is passed in as a partial
function (`none` models its thrown exception). -/
def isTokenExpired (decode : String → Option DecodedClientToken) (now : Nat)
    (token : String) : Bool :=
  match decode token with
  | some decoded => if decoded.exp < now then true else false
  | none => false

/-- The source's `AuthService.loggedIn()`: the stored token (from
localStorage, possibly absent) must be truthy and not expired. -/
def loggedIn (decode : String → Option DecodedClientToken) (now : Nat)
    (token : Option String) : Bool :=
  match token with
  | none => false
  | some t => t ≠ "" && !(isTokenExpired decode now t)

/-! ## Client cache synchronizer (the `update` callback of `ThoughtForm`) -/

/-- A reaction document: `{ reactionBody, username }` as pushed by the
`addReaction` resolver (plus server-generated fields not relevant here). -/
structure Reaction where
  reactionBody : String
  username : String
  deriving Repr, DecidableEq

/-- A thought document: `{ _id, thoughtText, username, reactions }`. -/
structure Thought where
  _id : Nat
  thoughtText : String
  username : String
  reactions : List Reaction
  deriving Repr, DecidableEq

/-- The shape cached under `QUERY_ME`: the `me` object, of which the `update`
callback spreads everything and replaces the `thoughts` list. The fields left
untouched by the spread are represented by `username`. -/
structure Me where
  username : String
  thoughts : List Thought
  deriving Repr, DecidableEq

/-- The Apollo client cache as the `ThoughtForm` update callback touches it:
the `QUERY_THOUGHTS` result and the `QUERY_ME` result, each possibly never
populated (`none`). `cache.readQuery` on an unpopulated query throws. -/
structure Cache where
  thoughtsQuery : Option (List Thought)
  meQuery : Option Me
  deriving Repr, DecidableEq

/-- The `update(cache, { data: { addThought } })` callback of `ThoughtForm`.
The `QUERY_THOUGHTS` read/write is wrapped in `try...catch` (an unpopulated
feed view is skipped); the subsequent `QUERY_ME` read is not wrapped, so its
failure on an unpopulated profile view escapes the callback. Returns the
callback's outcome together with the cache as mutated up to that point
(`cache.writeQuery` mutations persist even when a later statement throws). -/
def thoughtFormUpdate (addThought : Thought) (cache : Cache) :
    Except Err Unit × Cache :=
  let cache1 :=
    match cache.thoughtsQuery with
    | some thoughts => { cache with thoughtsQuery := some (addThought :: thoughts) }
    | none => cache
  match cache1.meQuery with
  | some me =>
      (.ok (), { cache1 with
                   meQuery := some { me with thoughts := me.thoughts ++ [addThought] } })
  | none => (.error (.cacheMiss "readQuery QUERY_ME: query not cached"), cache1)

/-! ## Server resolvers (`server/schemas/resolvers.js`) -/

/-- A user document: `{ _id, username, email, password, thoughts, friends }`,
where `thoughts` and `friends` hold ids of thought and user documents. The
`password` field stores the bcrypt hash. -/
structure User where
  _id : Nat
  username : String
  email : String
  password : String
  thoughts : List Nat
  friends : List Nat
  deriving Repr, DecidableEq

/-- The persistence layer state: the `User` and `Thought` collections, plus
the id MongoDB would assign to the next created thought. -/
structure DB where
  users : List User
  thoughts : List Thought
  nextThoughtId : Nat
  deriving Repr, DecidableEq

/-- Mongo's find-one-and-update at single-document granularity: update the
first document matching the predicate and return the updated document
(`{ new: true }` semantics); return `none` and leave the collection unchanged
when no document matches. -/
def updateFirst (p : α → Bool) (f : α → α) : List α → Option α × List α
  | [] => (none, [])
  | x :: xs =>
    if p x then (some (f x), f x :: xs)
    else
      let r := updateFirst p f xs
      (r.1, x :: r.2)

/-- Modelled from the spec: `isCorrectPassword` lives in `models/User.js`
(not among the provided sources); per the spec it checks "the provided secret
... match[es] the stored hash" via the opaque bcrypt compare primitive, here
modelled as equality with an injective hash. -/
def bcryptHash (s : String) : String := "bcrypt$" ++ s

/-- Modelled from the spec: the user model's `isCorrectPassword(password)`,
comparing the incoming password against the stored hash. -/
def isCorrectPassword (u : User) (password : String) : Bool :=
  u.password == bcryptHash password

/-- The `Mutation.login` resolver: find the user by email; throw
`AuthenticationError('Incorrect credentials')` when none exists; compare the
password and throw the same error when it does not match; otherwise sign a
token and return `{ token, user }`. The store is returned unchanged (login
performs no write). -/
def login (email password : String) (now : Nat) (db : DB) :
    Except Err (JwtToken × User) × DB :=
  match db.users.find? (fun u => u.email == email) with
  | none => (.error (.authenticationError "Incorrect credentials"), db)
  | some user =>
    if isCorrectPassword user password then
      (.ok (signToken user.username user.email user._id now, user), db)
    else (.error (.authenticationError "Incorrect credentials"), db)

/-- The `Mutation.addThought` resolver: when `context.user` is present, create
a thought stamped with the caller's username, push its id onto the caller's
`thoughts` array via `findByIdAndUpdate`, and return the created thought;
otherwise throw `AuthenticationError('You need to be logged in!')` without
touching the store. -/
def addThought (ctxUser : Option AuthPayload) (thoughtText : String)
    (db : DB) : Except Err Thought × DB :=
  match ctxUser with
  | some u =>
    let thought : Thought :=
      { _id := db.nextThoughtId, thoughtText := thoughtText,
        username := u.username, reactions := [] }
    let users' :=
      (updateFirst (fun usr => usr._id == u._id)
        (fun usr => { usr with thoughts := usr.thoughts ++ [thought._id] })
        db.users).2
    (.ok thought,
     { db with users := users', thoughts := db.thoughts ++ [thought],
               nextThoughtId := db.nextThoughtId + 1 })
  | none => (.error (.authenticationError "You need to be logged in!"), db)

/-- The `Mutation.addReaction` resolver: when `context.user` is present, push
`{ reactionBody, username: context.user.username }` onto the target thought's
`reactions` array via `findOneAndUpdate` with `{ new: true }`, returning the
updated parent thought (or `null` when no thought has that id); otherwise
throw `AuthenticationError('You need to be logged in!')`. -/
def addReaction (ctxUser : Option AuthPayload) (thoughtId : Nat)
    (reactionBody : String) (db : DB) : Except Err (Option Thought) × DB :=
  match ctxUser with
  | some u =>
    let r := updateFirst (fun t => t._id == thoughtId)
      (fun t => { t with
                    reactions := t.reactions ++ [⟨reactionBody, u.username⟩] })
      db.thoughts
    (.ok r.1, { db with thoughts := r.2 })
  | none => (.error (.authenticationError "You need to be logged in!"), db)

/-- Mongo's `$addToSet`: append the value to the array only when it is not
already present. -/
def addToSet (v : Nat) (l : List Nat) : List Nat :=
  if l.contains v then l else l ++ [v]

/-- The `populate('friends')` step: resolve each friend id to its user
document. -/
def populateFriends (db : DB) (u : User) : List User :=
  u.friends.filterMap (fun fid => db.users.find? (fun v => v._id == fid))

/-- The `Mutation.addFriend` resolver: when `context.user` is present, add
`friendId` into the caller's `friends` array with `$addToSet` (set semantics)
via `findOneAndUpdate` with `{ new: true }`, and return the updated user
together with the resolved friend documents (`populate('friends')`); `none`
when the caller's record does not exist. Otherwise throw
`AuthenticationError('You need to be logged in!')`. -/
def addFriend (ctxUser : Option AuthPayload) (friendId : Nat) (db : DB) :
    Except Err (Option (User × List User)) × DB :=
  match ctxUser with
  | some u =>
    let r := updateFirst (fun usr => usr._id == u._id)
      (fun usr => { usr with friends := addToSet friendId usr.friends })
      db.users
    let db' := { db with users := r.2 }
    (.ok (r.1.map (fun usr => (usr, populateFriends db' usr))), db')
  | none => (.error (.authenticationError "You need to be logged in!"), db)

/-! ## Sample stores for concrete instantiations -/

/-- A store with one registered user. -/
def dbOneUser : DB :=
  ⟨[⟨1, "alice", "alice@x.com", bcryptHash "right", [], []⟩], [], 0⟩

/-- A store with one user and one thought. -/
def dbUserAndThought : DB :=
  ⟨[⟨1, "alice", "alice@x.com", "h", [], []⟩], [⟨10, "t", "bob", []⟩], 11⟩

/-- A store with two users. -/
def dbTwoUsers : DB :=
  ⟨[⟨1, "alice", "alice@x.com", "h", [], []⟩,
    ⟨7, "bob", "bob@x.com", "h", [], []⟩], [], 0⟩

/-- A store with a single thought that already carries one reaction. -/
def dbOneThought : DB :=
  ⟨[], [⟨10, "hello", "bob", [⟨"old", "carol"⟩]⟩], 11⟩

/-! ## Helper lemmas -/

/-- When the first matching element of the list is `x` (everything before it
fails the predicate), `updateFirst` updates exactly `x` and returns it. -/
theorem updateFirst_found (p : α → Bool) (f : α → α) (pre post : List α)
    (x : α) (hpre : ∀ y ∈ pre, p y = false) (hx : p x = true) :
    updateFirst p f (pre ++ x :: post) = (some (f x), pre ++ f x :: post) := by
  induction pre with
  | nil => simp [updateFirst, hx]
  | cons a l ih =>
    have ha : p a = false := hpre a (by simp)
    have ih' := ih (fun y hy => hpre y (by simp [hy]))
    simp [updateFirst, ha, ih']

/-- Any document returned by `updateFirst` is the image under the update
function of some list element satisfying the predicate. -/
theorem updateFirst_some (p : α → Bool) (f : α → α) (l : List α) (y : α)
    (h : (updateFirst p f l).1 = some y) :
    ∃ x, x ∈ l ∧ p x = true ∧ y = f x := by
  induction l with
  | nil => simp [updateFirst] at h
  | cons a l ih =>
    by_cases hp : p a = true
    · refine ⟨a, by simp, hp, ?_⟩
      simp [updateFirst, hp] at h
      exact h.symm
    · simp [updateFirst, hp] at h
      obtain ⟨x, hx, hpx, hy⟩ := ih h
      exact ⟨x, by simp [hx], hpx, hy⟩

/-- `$addToSet` is idempotent: adding a value that the first add put there is
a no-op. -/
theorem addToSet_idem (v : Nat) (l : List Nat) :
    addToSet v (addToSet v l) = addToSet v l := by
  by_cases h : v ∈ l
  · simp [addToSet, h]
  · simp [addToSet, h]

/-- `$addToSet` on an array holding the value at most once leaves exactly one
occurrence. -/
theorem addToSet_count (v : Nat) (l : List Nat) (h : l.count v ≤ 1) :
    (addToSet v l).count v = 1 := by
  by_cases hmem : v ∈ l
  · have h1 : 0 < l.count v := List.count_pos_iff.mpr hmem
    have he : addToSet v l = l := by simp [addToSet, hmem]
    rw [he]
    omega
  · have h0 : l.count v = 0 := List.count_eq_zero.mpr hmem
    simp [addToSet, hmem, List.count_append, h0]

/-! ## Claim theorems -/

/-- C9: the credential token is taken from the three carriers with precedence
body field `token`, then query parameter `token`, then the `Authorization`
header; whenever the `Authorization` header is present (truthy), the selected
value has the Bearer scheme prefix stripped (split on the space character,
take the last segment, trim) before verification. The source's selection
(`extractedToken`, built from the JavaScript `||` chain) coincides with the
spec's precedence formula (`specTokenSelection`), and each precedence case is
spelled out. -/
theorem token_precedence_and_strip (req : Req) :
    extractedToken req = specTokenSelection req
    ∧ (truthy req.body_token = true →
        extractedToken req =
          (if truthy req.authorization then req.body_token.map stripBearer
           else req.body_token))
    ∧ (truthy req.body_token = false → truthy req.query_token = true →
        extractedToken req =
          (if truthy req.authorization then req.query_token.map stripBearer
           else req.query_token))
    ∧ (truthy req.body_token = false → truthy req.query_token = false →
        extractedToken req =
          (if truthy req.authorization then req.authorization.map stripBearer
           else req.authorization)) := by
  refine ⟨rfl, ?_, ?_, ?_⟩
  · intro hb
    simp [extractedToken, jsOr, hb]
  · intro hb hq
    simp [extractedToken, jsOr, hb, hq]
  · intro hb hq
    simp [extractedToken, jsOr, hb, hq]

/-- C9 witness: with all three carriers populated and the header absent, the
body field wins. -/
theorem token_precedence_and_strip_witness :
    extractedToken ⟨some "bodytok", some "querytok", none, none⟩ =
      some "bodytok" := by
  have h := (token_precedence_and_strip
      ⟨some "bodytok", some "querytok", none, none⟩).2.1 (by decide)
  simpa [truthy] using h

/-- C3: the Request Identity Resolver fails open. When the selected credential
fails verification (malformed or expired), `authMiddleware` returns the
request unchanged with no identity attached (the middleware is a total
function, embedding the `try...catch` that prevents any error from reaching
the transport layer); when no carrier holds a credential, it returns the
request unmodified. -/
theorem authMiddleware_fail_open (verify : String → Except Err SignedPayload)
    (req : Req) (hu : req.user = none) :
    (∀ t e, extractedToken req = some t → verify t = .error e →
        authMiddleware verify req = req ∧ (authMiddleware verify req).user = none)
    ∧ (truthy req.body_token = false → truthy req.query_token = false →
        truthy req.authorization = false →
        authMiddleware verify req = req) := by
  constructor
  · intro t e hext hver
    have hmw : authMiddleware verify req = req := by
      unfold authMiddleware
      rw [hext]
      by_cases ht : t = ""
      · simp [ht]
      · simp [ht, hver]
    exact ⟨hmw, by rw [hmw, hu]⟩
  · intro hb hq ha
    have hext : extractedToken req = req.authorization := by
      simp [extractedToken, jsOr, hb, hq, ha]
    unfold authMiddleware
    rw [hext]
    match hauth : req.authorization with
    | none => rfl
    | some s =>
      have hs : s = "" := by
        rw [hauth] at ha
        simpa [truthy] using ha
      simp [hs]

/-- C3 witness: a request carrying a malformed token in the body is returned
unchanged, identity-free, by a verifier that rejects it. -/
theorem authMiddleware_fail_open_witness :
    authMiddleware (fun _ => Except.error Err.invalidToken)
        ⟨some "badtoken", none, none, none⟩ =
      ⟨some "badtoken", none, none, none⟩ :=
  ((authMiddleware_fail_open (fun _ => Except.error Err.invalidToken)
      ⟨some "badtoken", none, none, none⟩ rfl).1 "badtoken" Err.invalidToken
      (by decide) rfl).1

/-- C4: sign/verify round trip. For every identity assertion, verifying (with
the module secret and maximum age) the token `signToken` produced returns
exactly the signed assertion, provided verification happens within the
token's validity window. -/
theorem verify_sign_roundtrip (username email : String) (id iat now : Nat)
    (h : now ≤ iat + expirationSecs) :
    jwt_verify secret expirationSecs now (signToken username email id iat) =
      .ok ⟨⟨username, email, id⟩⟩ := by
  simp [jwt_verify, signToken, jwt_sign, h]

/-- C4 witness: a token signed at time 0 verifies at time 100. -/
theorem verify_sign_roundtrip_witness :
    jwt_verify secret expirationSecs 100
        (signToken "alice" "alice@x.com" 1 0) =
      .ok ⟨⟨"alice", "alice@x.com", 1⟩⟩ :=
  verify_sign_roundtrip "alice" "alice@x.com" 1 0 100 (by decide)

/-- C10: on the client, a token that cannot be decoded is never reported as
expired (the decode failure is caught and `isTokenExpired` returns `false`),
so `loggedIn` returns `true` for every non-empty stored token that is not a
decodable-and-expired JWT — a malformed token counts as logged in. -/
theorem malformed_token_logged_in
    (decode : String → Option DecodedClientToken) (now : Nat)
    (token : String) :
    (decode token = none → isTokenExpired decode now token = false)
    ∧ (token ≠ "" → (∀ d, decode token = some d → ¬ d.exp < now) →
        loggedIn decode now (some token) = true) := by
  constructor
  · intro h
    simp [isTokenExpired, h]
  · intro hne hnexp
    rcases hd : decode token with _ | d
    · simp [loggedIn, isTokenExpired, hd, hne]
    · have hlt := hnexp d hd
      simp [loggedIn, isTokenExpired, hd, hne, hlt]

/-- C10 witness: an undecodable stored token counts as logged in. -/
theorem malformed_token_logged_in_witness :
    loggedIn (fun _ => none) 0 (some "garbage") = true :=
  (malformed_token_logged_in (fun _ => none) 0 "garbage").2 (by decide)
    (fun _ hd => nomatch hd)

/-- C7: when both the feed view (`QUERY_THOUGHTS`) and the profile view
(`QUERY_ME`) are populated, the `ThoughtForm` update callback prepends the
new thought to the feed snapshot (newest-first) and appends it to the end of
the profile view's thought list, raising no error. -/
theorem thoughtFormUpdate_both_views (t2 : Thought) (ts : List Thought)
    (me : Me) :
    thoughtFormUpdate t2 ⟨some ts, some me⟩ =
      (.ok (),
       ⟨some (t2 :: ts), some { me with thoughts := me.thoughts ++ [t2] }⟩) :=
  rfl

/-- C1 counterexample: with the feed view populated as `[T1]` and the profile
view never populated, posting `T2` does NOT complete silently — the unguarded
`cache.readQuery({ query: QUERY_ME })` fails and the update callback raises
that error to the caller, contradicting the claim that the failed read is
caught locally and no error is raised. -/
theorem thoughtFormUpdate_unpopulated_me_raises :
    (thoughtFormUpdate ⟨2, "T2", "alice", []⟩
        ⟨some [⟨1, "T1", "alice", []⟩], none⟩).1 =
      Except.error (Err.cacheMiss "readQuery QUERY_ME: query not cached") :=
  rfl

/-- C1 amended: with the feed view populated and the profile view never
populated, the callback still sets the feed cache to `[T2, T1]` and leaves
the profile view absent, but the failed read of the unpopulated profile view
is not caught — only the feed-view read sits inside the `try...catch`, and
the profile-view read failure propagates to the caller. -/
theorem thoughtFormUpdate_feed_only_guarded (t2 : Thought)
    (ts : List Thought) :
    thoughtFormUpdate t2 ⟨some ts, none⟩ =
      (.error (.cacheMiss "readQuery QUERY_ME: query not cached"),
       ⟨some (t2 :: ts), none⟩) :=
  rfl

/-- C5: login with a nonexistent email and login with an existing email but a
wrong password fail with literally the same error value — same kind
(`AuthenticationError`) and same message (`'Incorrect credentials'`) — so the
two failure causes are indistinguishable to the caller, and the store is
untouched in both cases. -/
theorem login_failures_indistinguishable (db : DB) (email password : String)
    (now : Nat) :
    (db.users.find? (fun u => u.email == email) = none →
      login email password now db =
        (.error (.authenticationError "Incorrect credentials"), db))
    ∧ (∀ u, db.users.find? (fun u => u.email == email) = some u →
        isCorrectPassword u password = false →
        login email password now db =
          (.error (.authenticationError "Incorrect credentials"), db)) := by
  constructor
  · intro h
    unfold login
    rw [h]
  · intro u hu hpw
    unfold login
    rw [hu]
    simp [hpw]

/-- C5 witness: against a store holding only alice, logging in as a ghost
email and logging in as alice with a wrong password produce identical
errors. -/
theorem login_failures_indistinguishable_witness :
    login "ghost@x.com" "pw" 0 dbOneUser =
      (.error (.authenticationError "Incorrect credentials"), dbOneUser)
    ∧ login "alice@x.com" "wrong" 0 dbOneUser =
      (.error (.authenticationError "Incorrect credentials"), dbOneUser) :=
  ⟨(login_failures_indistinguishable dbOneUser "ghost@x.com" "pw" 0).1
      (by decide),
   (login_failures_indistinguishable dbOneUser "alice@x.com" "wrong" 0).2
      ⟨1, "alice", "alice@x.com", bcryptHash "right", [], []⟩ (by decide)
      (by decide)⟩

/-- C2: every mutating operation that requires an actor (`addThought`,
`addReaction`, `addFriend`) fails with the `Unauthenticated` rejection
(`AuthenticationError('You need to be logged in!')`) and leaves the store
untouched when the context carries no identity; with an identity present,
each proceeds using exactly that identity (the created thought is stamped
with the caller's username, the appended reaction carries the caller's
username, and the friend update targets the caller's own record). -/
theorem mutations_require_identity (thoughtText : String) (thoughtId : Nat)
    (reactionBody : String) (friendId : Nat) (db : DB) :
    addThought none thoughtText db =
        (.error (.authenticationError "You need to be logged in!"), db)
    ∧ addReaction none thoughtId reactionBody db =
        (.error (.authenticationError "You need to be logged in!"), db)
    ∧ addFriend none friendId db =
        (.error (.authenticationError "You need to be logged in!"), db)
    ∧ (∀ u : AuthPayload, (addThought (some u) thoughtText db).1 =
        .ok { _id := db.nextThoughtId, thoughtText := thoughtText,
              username := u.username, reactions := [] })
    ∧ (∀ (u : AuthPayload) (t' : Thought),
        (addReaction (some u) thoughtId reactionBody db).1 = .ok (some t') →
        t'.reactions.getLast? = some ⟨reactionBody, u.username⟩)
    ∧ (∀ (u : AuthPayload) (r : User × List User),
        (addFriend (some u) friendId db).1 = .ok (some r) →
        r.1._id = u._id) := by
  refine ⟨rfl, rfl, rfl, fun u => rfl, ?_, ?_⟩
  · intro u t' h
    simp [addReaction] at h
    obtain ⟨x, -, -, ht'⟩ := updateFirst_some _ _ _ _ h
    subst ht'
    simp [List.getLast?_concat]
  · intro u r h
    simp [addFriend] at h
    obtain ⟨a, ha, hr⟩ := h
    obtain ⟨x, -, hpx, hax⟩ := updateFirst_some _ _ _ _ ha
    subst hax
    rw [← hr]
    simpa using hpx

/-- C2 witness: the unauthenticated rejection at a concrete store, plus the
identity stamping conclusions at concrete inputs. -/
theorem mutations_require_identity_witness :
    addThought none "hi" dbUserAndThought =
      (.error (.authenticationError "You need to be logged in!"),
       dbUserAndThought)
    ∧ (⟨10, "t", "bob", [⟨"nice", "alice"⟩]⟩ : Thought).reactions.getLast?
        = some (⟨"nice", "alice"⟩ : Reaction)
    ∧ (⟨1, "alice", "alice@x.com", "h", [], [7]⟩ : User)._id
        = (⟨"alice", "alice@x.com", 1⟩ : AuthPayload)._id :=
  ⟨(mutations_require_identity "hi" 10 "nice" 7 dbUserAndThought).1,
   (mutations_require_identity "hi" 10 "nice" 7 dbUserAndThought).2.2.2.2.1
      ⟨"alice", "alice@x.com", 1⟩ ⟨10, "t", "bob", [⟨"nice", "alice"⟩]⟩
      rfl,
   (mutations_require_identity "hi" 10 "nice" 7 dbUserAndThought).2.2.2.2.2
      ⟨"alice", "alice@x.com", 1⟩
      (⟨1, "alice", "alice@x.com", "h", [], [7]⟩, []) rfl⟩

/-- C6: for an authenticated caller and an existing target thought,
`addReaction` returns the updated parent thought (not the bare reaction):
its reactions list is the old list with the new reaction appended — one
element longer — and the appended reaction carries the caller's username. -/
theorem addReaction_returns_updated_thought (u : AuthPayload)
    (thoughtId : Nat) (body : String) (db : DB) (pre post : List Thought)
    (t : Thought) (hdb : db.thoughts = pre ++ t :: post)
    (hpre : ∀ t' ∈ pre, (t'._id == thoughtId) = false)
    (ht : (t._id == thoughtId) = true) :
    addReaction (some u) thoughtId body db =
      (.ok (some { t with reactions := t.reactions ++ [⟨body, u.username⟩] }),
       { db with thoughts :=
          pre ++ { t with reactions := t.reactions ++ [⟨body, u.username⟩] }
            :: post })
    ∧ ({ t with reactions := t.reactions ++ [⟨body, u.username⟩] }
        : Thought).reactions.length = t.reactions.length + 1
    ∧ ({ t with reactions := t.reactions ++ [⟨body, u.username⟩] }
        : Thought).reactions.getLast? = some (⟨body, u.username⟩ : Reaction) := by
  have h := updateFirst_found (fun t' => t'._id == thoughtId)
      (fun t' => { t' with reactions := t'.reactions ++ [⟨body, u.username⟩] })
      pre post t hpre ht
  refine ⟨?_, by simp, by simp [List.getLast?_concat]⟩
  simp [addReaction, h, hdb]

/-- C6 witness: alice reacts to bob's thought; the returned parent thought
carries the old reaction plus hers. -/
theorem addReaction_returns_updated_thought_witness :
    addReaction (some ⟨"alice", "alice@x.com", 1⟩) 10 "nice" dbOneThought =
      (.ok (some ⟨10, "hello", "bob",
                  [⟨"old", "carol"⟩, ⟨"nice", "alice"⟩]⟩),
       ⟨[], [⟨10, "hello", "bob", [⟨"old", "carol"⟩, ⟨"nice", "alice"⟩]⟩],
        11⟩) := by
  have h := (addReaction_returns_updated_thought ⟨"alice", "alice@x.com", 1⟩
      10 "nice" dbOneThought [] [] ⟨10, "hello", "bob", [⟨"old", "carol"⟩]⟩
      rfl (by simp) (by decide)).1
  simpa [dbOneThought] using h

/-- C8: adding the same friend id twice via `addFriend` leaves the caller's
friend list with exactly one occurrence of that id (`$addToSet` set
semantics: the duplicate add is a no-op), and the operation returns the
caller's updated record together with the resolved friend list
(`populate('friends')`). The hypotheses say the caller's record is the first
with the caller's id and held the friend id at most once beforehand. -/
theorem addFriend_set_semantics (u : AuthPayload) (fid : Nat) (db : DB)
    (pre post : List User) (caller : User)
    (hdb : db.users = pre ++ caller :: post)
    (hpre : ∀ y ∈ pre, (y._id == u._id) = false)
    (hid : (caller._id == u._id) = true)
    (hcount : caller.friends.count fid ≤ 1) :
    (addFriend (some u) fid (addFriend (some u) fid db).2).1 =
      .ok (some ({ caller with friends := addToSet fid caller.friends },
        populateFriends (addFriend (some u) fid (addFriend (some u) fid db).2).2
          { caller with friends := addToSet fid caller.friends }))
    ∧ (addFriend (some u) fid (addFriend (some u) fid db).2).2.users =
        pre ++ { caller with friends := addToSet fid caller.friends } :: post
    ∧ (addToSet fid caller.friends).count fid = 1 := by
  have h1 := updateFirst_found (fun usr => usr._id == u._id)
      (fun usr => { usr with friends := addToSet fid usr.friends })
      pre post caller hpre hid
  have e1 : (addFriend (some u) fid db).2 =
      { db with users :=
          pre ++ { caller with friends := addToSet fid caller.friends }
            :: post } := by
    simp [addFriend, hdb, h1]
  have h2 := updateFirst_found (fun usr => usr._id == u._id)
      (fun usr => { usr with friends := addToSet fid usr.friends })
      pre post { caller with friends := addToSet fid caller.friends } hpre hid
  have hff : ({ caller with
      friends := addToSet fid (addToSet fid caller.friends) } : User)
        = { caller with friends := addToSet fid caller.friends } := by
    rw [addToSet_idem]
  refine ⟨?_, ?_, addToSet_count fid caller.friends hcount⟩
  · rw [e1]
    simp [addFriend, h2, hff]
  · rw [e1]
    simp [addFriend, h2, hff]

/-- C8 witness: alice adds bob (id 7) twice starting from a friendless
record; the second call returns her record holding 7 exactly once, with
bob's record resolved. -/
theorem addFriend_set_semantics_witness :
    (addFriend (some ⟨"alice", "alice@x.com", 1⟩) 7
        (addFriend (some ⟨"alice", "alice@x.com", 1⟩) 7 dbTwoUsers).2).1 =
      .ok (some (⟨1, "alice", "alice@x.com", "h", [], [7]⟩,
                 [⟨7, "bob", "bob@x.com", "h", [], []⟩])) := by
  have h := (addFriend_set_semantics ⟨"alice", "alice@x.com", 1⟩ 7 dbTwoUsers
      [] [⟨7, "bob", "bob@x.com", "h", [], []⟩]
      ⟨1, "alice", "alice@x.com", "h", [], []⟩ rfl (by simp) (by decide)
      (by decide)).1
  simpa [dbTwoUsers, addToSet, populateFriends] using h

end DeepThoughts
